import Mathlib

/-! Verification model of the qwebdriver cross-process synchronization bridge
(src/qwebdriver/iwebdriver.py together with the capture arithmetic of
src/qwebdriver/webdriver.py).

The Python code is embedded shallowly: the worker-side dispatcher slot
`_Synchronizer._sync_driver`, the controller-side `_InteractiveWebDriver._exec`
error rebuild, the quit sequence, both listener loops and the pixel-rectangle
clamping of `WebDriver.grab` become pure Lean functions; the interleaving of
the controller, the command channel and the worker-side message listener
becomes an explicit step relation. -/

namespace QWebDriver

/-- Python values that travel over the two channels: primitives, byte blobs
(pixel buffers) and nested tuples. -/
inductive PyValue where
  | pynone
  | pybool (b : Bool)
  | pyint (n : Int)
  | pystr (s : String)
  | pybytes (bs : List Nat)
  | pytuple (vs : List PyValue)

/-- Python truthiness, as used by `if self.driver_messager.data[1]:` and by
the walrus test `while url := chann.recv():`. -/
def PyValue.truthy : PyValue → Bool
  | .pynone => false
  | .pybool b => b
  | .pyint n => decide (n ≠ 0)
  | .pystr s => decide (s ≠ "")
  | .pybytes bs => !bs.isEmpty
  | .pytuple vs => !vs.isEmpty

/-- Portable error descriptor crossing the process boundary:
`type(ex).__name__` and `ex.args` (iwebdriver.py line 139). -/
structure PyErr where
  kind : String
  args : List PyValue

/-- A message on the command channel: `(mem, data)` as sent by `_exec`
(iwebdriver.py line 256). The quit message `('quit',)` carries no payload;
its payload field is never read by the quit branch. -/
structure WireMsg where
  method : String
  payload : PyValue

/-- A result sent back on the command channel: `(True, result)` or
`(False, type(ex).__name__, ex.args)`. -/
inductive Response where
  | success (v : PyValue)
  | failure (kind : String) (args : List PyValue)

/-- Model of a QImage as produced by `view.grab(rect).toImage()`: the Qt
invariant that the pixel buffer holds exactly `bytesPerLine * height` bytes
is carried as a proof field. -/
structure QImage where
  width : Nat
  height : Nat
  bytesPerLine : Nat
  format : Nat
  bits : List Nat
  size_eq : bits.length = bytesPerLine * height

/-- The null image `QImage()`. -/
def QImage.empty : QImage :=
  ⟨0, 0, 0, 0, [], rfl⟩

/-- Model of `img.constBits().tobytes()`: the protocol-owned copy of the
pixel buffer. In the value semantics of the model the copy is content-equal
to the framebuffer bytes. -/
def QImage.constBitsToBytes (img : QImage) : List Nat := img.bits

/-- The worker-side Engine (the WebDriver instance living in the secondary
process), seen through `getattr`: `ops name` is `none` when the attribute
does not exist (getattr raises AttributeError whose arguments are
`attrErrArgs name`), and `grabImage` is its `grab` method, which returns a
QImage. An operation either returns a value or raises an error. -/
structure Engine where
  ops : String → Option (PyValue → Except PyErr PyValue)
  grabImage : PyValue → Except PyErr QImage
  attrErrArgs : String → List PyValue

/-- Worker-side mutable state touched by `_sync_driver`: the message
listener's `alive` flag, the closure state of the worker ends of both
channels, whether `app.quit()` was called, and whether a url interceptor
callback is currently installed on the driver. -/
structure SyncState where
  alive : Bool
  driverChannClosed : Bool
  interceptorChannClosed : Bool
  appQuitCalled : Bool
  engineInterceptorOn : Bool

/-- Worker state right after `_Synchronizer.__init__`. -/
def initSyncState : SyncState :=
  ⟨true, false, false, false, false⟩

/-- Shallow embedding of the dispatcher slot `_Synchronizer._sync_driver`
(iwebdriver.py lines 107-139). The second component is the result sent back
on the command channel (`none` for quit, which answers nothing); the third
is the message sent on the interceptor channel (`some none` is the
`interceptor_chann.send(None)` of the quit branch). The whole body is
wrapped in `try/except Exception`, so an operation that raises is turned
into a `(False, kind, args)` result instead of propagating. -/
def syncDriver (eng : Engine) (st : SyncState) (m : WireMsg) :
    SyncState × Option Response × Option (Option String) :=
  if m.method = "quit" then
    ({ st with alive := false,
               driverChannClosed := true,
               interceptorChannClosed := true,
               appQuitCalled := true },
     none, some none)
  else if m.method = "interceptor" then
    ({ st with engineInterceptorOn := m.payload.truthy },
     some (Response.success PyValue.pynone), none)
  else if m.method = "grab" then
    match eng.grabImage m.payload with
    | Except.ok img =>
        (st, some (Response.success (PyValue.pytuple
          [PyValue.pybytes img.constBitsToBytes,
           PyValue.pyint (img.width : Int),
           PyValue.pyint (img.height : Int),
           PyValue.pyint (img.bytesPerLine : Int),
           PyValue.pyint (img.format : Int)])), none)
    | Except.error e => (st, some (Response.failure e.kind e.args), none)
  else
    match eng.ops m.method with
    | none =>
        (st, some (Response.failure "AttributeError" (eng.attrErrArgs m.method)), none)
    | some f =>
      match f m.payload with
      | Except.ok v => (st, some (Response.success v), none)
      | Except.error e => (st, some (Response.failure e.kind e.args), none)

/-- Split a character list at its last dot, mirroring
`res[1].rsplit('.', 1)`: `none` when no dot occurs. -/
def splitLastDotAux : List Char → Option (List Char × List Char)
  | [] => none
  | c :: rest =>
    match splitLastDotAux rest with
    | some (l, r) => some (c :: l, r)
    | none => if c = '.' then some ([], rest) else none

/-- Model of `kind.rsplit('.', 1)` restricted to one split: `none` when the
name has no dot (the branch taken for every `type(ex).__name__`), otherwise
the module part and the class part. -/
def rsplitDot (s : String) : Option (String × String) :=
  match splitLastDotAux s.data with
  | none => none
  | some (l, r) => some (⟨l⟩, ⟨r⟩)

/-- The exception class names of the Python builtins dictionary, against
which `_exec` resolves a dot-free error kind
(`module = globals()['__builtins__']; class_ = module[class_name]`). -/
def pyBuiltinExceptionNames : List String :=
  ["BaseException", "Exception", "ArithmeticError", "AssertionError",
   "AttributeError", "BlockingIOError", "BrokenPipeError", "BufferError",
   "ChildProcessError", "ConnectionAbortedError", "ConnectionError",
   "ConnectionRefusedError", "ConnectionResetError", "EOFError",
   "FileExistsError", "FileNotFoundError", "FloatingPointError",
   "ImportError", "IndentationError", "IndexError", "InterruptedError",
   "IsADirectoryError", "KeyError", "KeyboardInterrupt", "LookupError",
   "MemoryError", "ModuleNotFoundError", "NameError", "NotADirectoryError",
   "NotImplementedError", "OSError", "OverflowError", "PermissionError",
   "ProcessLookupError", "RecursionError", "ReferenceError", "RuntimeError",
   "StopAsyncIteration", "StopIteration", "SyntaxError", "SystemError",
   "SystemExit", "TabError", "TimeoutError", "TypeError",
   "UnboundLocalError", "UnicodeDecodeError", "UnicodeEncodeError",
   "UnicodeError", "UnicodeTranslateError", "ValueError",
   "ZeroDivisionError"]

/-- Shallow embedding of the exception-rebuild tail of
`_InteractiveWebDriver._exec` (iwebdriver.py lines 270-281). A dot-free kind
is looked up in the builtins dictionary; a missing key makes the dictionary
indexing itself raise `KeyError(kind)`. A dotted kind goes through
`importlib.import_module` (`moduleAttrs` lists the attribute names of the
importable modules; a missing module raises ModuleNotFoundError, a missing
attribute raises AttributeError). The returned error is the one the
controller call raises. -/
def rebuildException (moduleAttrs : String → Option (List String))
    (kind : String) (args : List PyValue) : PyErr :=
  match rsplitDot kind with
  | none =>
      if pyBuiltinExceptionNames.contains kind then ⟨kind, args⟩
      else ⟨"KeyError", [PyValue.pystr kind]⟩
  | some (modName, clsName) =>
      match moduleAttrs modName with
      | none => ⟨"ModuleNotFoundError", [PyValue.pystr modName]⟩
      | some attrs =>
          if attrs.contains clsName then ⟨kind, args⟩
          else ⟨"AttributeError", [PyValue.pystr clsName]⟩

/-- Result handling of `_exec` after `recv`: a success result returns its
value, a failure result raises the rebuilt exception. -/
def execResult (moduleAttrs : String → Option (List String)) (r : Response) :
    Except PyErr PyValue :=
  match r with
  | Response.success v => Except.ok v
  | Response.failure kind args => Except.error (rebuildException moduleAttrs kind args)

/-- Model of `self._driver_chann.send((mem, data))` inside `_exec`: when the
pipe is broken the send raises, and `_exec` has no handler for it, so the
transport failure propagates to the caller. -/
def execSend (brokenPipe : Bool) : Except PyErr Unit :=
  if brokenPipe then Except.error ⟨"BrokenPipeError", []⟩ else Except.ok ()

/-- Shallow embedding of `_InteractiveWebDriver._exec` (iwebdriver.py lines
251-281): send the command, block for the response (`transact` abstracts the
round trip), then either return the value or raise the rebuilt error. -/
def execModel (moduleAttrs : String → Option (List String)) (brokenPipe : Bool)
    (transact : WireMsg → Response) (mem : String) (payload : PyValue) :
    Except PyErr PyValue :=
  match execSend brokenPipe with
  | Except.error e => Except.error e
  | Except.ok _ => execResult moduleAttrs (transact ⟨mem, payload⟩)

/-- Shallow embedding of the rectangle clamping of `WebDriver.grab`
(webdriver.py lines 313-322): shrink `w`/`h` against the page dimensions,
clamp `x`/`y` to zero, and return `none` exactly when the code returns the
empty `QImage()`. The asymmetry between the negative-`w` and negative-`h`
branches is the source's. -/
def grabClamp (x y w h pw ph : Int) : Option (Int × Int × Int × Int) :=
  let w1 : Int := if w < 0 then pw else min w (pw - x)
  let h1 : Int := if h < 0 then ph - y else min h (ph - y)
  let w2 : Int := min (w1 + min 0 x) pw
  let h2 : Int := min (h1 + min 0 y) ph
  let x2 : Int := max 0 x
  let y2 : Int := max 0 y
  if x2 ≥ pw ∨ y2 ≥ ph ∨ w2 ≤ 0 ∨ h2 ≤ 0 then none
  else some (x2, y2, w2, h2)

/-- The capture rectangle actually passed to `view.grab` (webdriver.py lines
324, 352, 354): when the wanted band lies outside the currently scrolled
screen the view is resized and the rectangle starts at row 0, otherwise the
row is taken relative to the scroll position. -/
def grabRect (x y w h pw ph scrollTop screenH : Int) :
    Option (Int × Int × Int × Int) :=
  match grabClamp x y w h pw ph with
  | none => none
  | some (x2, y2, w2, h2) =>
      if y2 < scrollTop ∨ y2 + h2 > scrollTop + screenH then
        some (x2, 0, w2, h2)
      else
        some (x2, y2 - scrollTop, w2, h2)

/-- An image of dimensions `w × h` in 4-bytes-per-pixel format grabbed from
an abstract framebuffer `fb`: the buffer holds `4 * w * h` bytes with
`bytesPerLine = 4 * w`. -/
def mkGrabImage (fb : Nat → Nat) (w h fmt : Nat) : QImage :=
  ⟨w, h, 4 * w, fmt, (List.range (4 * w * h)).map fb, by
    rw [List.length_map, List.length_range, Nat.mul_assoc]⟩

/-- Shallow embedding of the observable result of `WebDriver.grab`: the
empty image when the clamped rectangle is degenerate or out of bounds,
otherwise an image of the rectangle's dimensions. -/
def webDriverGrab (fb : Nat → Nat) (fmt : Nat)
    (x y w h pw ph scrollTop screenH : Int) : QImage :=
  match grabRect x y w h pw ph scrollTop screenH with
  | none => QImage.empty
  | some (_, _, w2, h2) => mkGrabImage fb w2.toNat h2.toNat fmt

/-- Handoffs performed by the `_MessageWorker.run` loop (iwebdriver.py lines
87-92) over the stream of receive outcomes: `some m` is a received message
(stored in `self.data` and signalled to the Engine thread), `none` is the
end-of-stream error the blocking `recv` reports once the channel ends are
closed during quit handling, which makes the thread exit at once. -/
def messageWorkerEmits : List (Option WireMsg) → List WireMsg
  | [] => []
  | none :: _ => []
  | some m :: rest => m :: messageWorkerEmits rest

/-- Verdict computed by one iteration of the `_Interceptor.run` body
(iwebdriver.py lines 160-164): the registered predicate is applied to the
url and any exception it raises is caught, logged, and turned into the
verdict `False`. -/
def interceptorVerdict (p : String → Except PyErr Bool) (url : String) : Bool :=
  match p url with
  | Except.ok b => b
  | Except.error _ => false

/-- Python falsiness of a received url: `None` (sent by the worker quit
branch) and the empty string (sent by the controller quit) both fail the
walrus test `while url := chann.recv():`. -/
def pyFalsyUrl : Option String → Bool
  | none => true
  | some s => decide (s = "")

/-- Verdicts sent back by the `_Interceptor.run` loop (iwebdriver.py lines
157-165) over a stream of received urls: the loop answers one boolean per
truthy url and stops at the first falsy one. -/
def interceptorRunSends (p : String → Except PyErr Bool) :
    List (Option String) → List Bool
  | [] => []
  | u :: rest =>
    match u with
    | none => []
    | some s =>
        if s = "" then []
        else interceptorVerdict p s :: interceptorRunSends p rest

/-- Whether the `_Interceptor.run` loop has exited and executed
`chann.close()` (iwebdriver.py line 166), which happens exactly on the
first falsy url of the stream. -/
def interceptorRunClosed (p : String → Except PyErr Bool) :
    List (Option String) → Bool
  | [] => false
  | u :: rest =>
    match u with
    | none => true
    | some s => if s = "" then true else interceptorRunClosed p rest

/-- Observable side effects of the controller quit sequence, in execution
order. `sendQuitCmd` records the best-effort send of `('quit',)` together
with whether the pipe was broken (the raised BrokenPipeError is swallowed). -/
inductive QuitAction where
  | sendQuitCmd (pipeBroken : Bool)
  | closeDriverChann
  | sendInterceptorSentinel
  | joinInterceptorThread
  | closeInterceptorChann
  | joinWorkerProcess
deriving DecidableEq

/-- Controller-side session state of `_InteractiveWebDriver`: whether
`self._driver_chann` still holds the channel (it is set to `None` by quit)
and whether the interceptor listener thread was ever started. -/
structure ICtrlState where
  driverChannOpen : Bool
  interceptorThreadStarted : Bool
deriving DecidableEq

/-- Shallow embedding of `_InteractiveWebDriver.quit` (iwebdriver.py lines
185-197): on a live channel, best-effort send of the quit command (a broken
pipe is caught and ignored), close of the command channel end, then — only
if the interceptor thread was ever started — the empty-string sentinel and
the thread join, then close of the interceptor channel end, and finally the
channel handle is cleared. On a cleared handle nothing happens. -/
def interactiveQuit (s : ICtrlState) (pipeBroken : Bool) :
    ICtrlState × List QuitAction :=
  if s.driverChannOpen then
    ({ s with driverChannOpen := false },
     QuitAction.sendQuitCmd pipeBroken ::
       QuitAction.closeDriverChann ::
       ((if s.interceptorThreadStarted then
           [QuitAction.sendInterceptorSentinel, QuitAction.joinInterceptorThread]
         else []) ++
        [QuitAction.closeInterceptorChann]))
  else (s, [])

/-- Shallow embedding of `AppDriver.quit` (iwebdriver.py lines 316-318):
the interactive driver quit followed by the join of the worker process. -/
def appDriverQuit (s : ICtrlState) (pipeBroken : Bool) :
    ICtrlState × List QuitAction :=
  let r := interactiveQuit s pipeBroken
  (r.1, r.2 ++ [QuitAction.joinWorkerProcess])

/-- The interceptor predicate installed while interception is disabled
(`_default_interceptor`, iwebdriver.py lines 147-148): it returns `False`
for every url and never raises. -/
def defaultInterceptor : String → Except PyErr Bool :=
  fun _ => Except.ok false

/-- Controller-side interceptor registration state: whether the listener
thread was started and the predicate slot `_Interceptor.interceptor`
(modelled as an option so that holding no callable at all is expressible). -/
structure InterceptorCtrl where
  threadStarted : Bool
  slot : Option (String → Except PyErr Bool)

/-- Shallow embedding of `_InteractiveWebDriver.set_url_request_interceptor`
(iwebdriver.py lines 199-205): start the listener thread if it never ran,
store `interceptor or _default_interceptor` in the slot, and send the
`('interceptor', bool(interceptor))` command. The boolean of the result
records whether a new thread was spawned by this call. -/
def setUrlRequestInterceptor (s : InterceptorCtrl)
    (p : Option (String → Except PyErr Bool)) :
    InterceptorCtrl × Bool × WireMsg :=
  (⟨true, some (p.getD defaultInterceptor)⟩,
   !s.threadStarted,
   ⟨"interceptor", PyValue.pybool p.isSome⟩)

/-- Global protocol state for the command-channel round trips: the calls
the controller has yet to make, whether it is blocked in the `recv` of
`_exec` (`awaiting`), whether it already sent `quit` and cleared the
channel handle (`quitSent`), the messages in flight in each pipe direction
(`c2w` controller to worker, `w2c` worker back), the listener slot
`self.data` with its queued `received()` signal (`emitted`), and the
worker-side dispatcher state. -/
structure ProtoState where
  pending : List WireMsg
  awaiting : Bool
  quitSent : Bool
  c2w : List WireMsg
  w2c : List Response
  slot : Option WireMsg
  emitted : Bool
  sync : SyncState

/-- Initial protocol state, given the script of calls the controller will
make over the session. -/
def protoInit (script : List WireMsg) : ProtoState :=
  ⟨script, false, false, [], [], none, false, initSyncState⟩

/-- Interleaving semantics of one session: the controller thread runs
`_exec` (send, then block until the response is received) or the
fire-and-forget quit send; the worker-side message listener completes a
`recv` by storing the message in `self.data` and queueing the signal; the
Engine thread consumes the queued signal by running `_sync_driver`. Each
constructor is one atomic step of one thread. -/
inductive ProtoStep (eng : Engine) : ProtoState → ProtoState → Prop where
  | send (m : WireMsg) (rest : List WireMsg) {s : ProtoState}
      (hp : s.pending = m :: rest) (ha : s.awaiting = false)
      (hq : s.quitSent = false) (hm : m.method ≠ "quit") :
      ProtoStep eng s { s with pending := rest, awaiting := true, c2w := s.c2w ++ [m] }
  | sendQuit (m : WireMsg) (rest : List WireMsg) {s : ProtoState}
      (hp : s.pending = m :: rest) (ha : s.awaiting = false)
      (hq : s.quitSent = false) (hm : m.method = "quit") :
      ProtoStep eng s { s with pending := [], quitSent := true, c2w := s.c2w ++ [m] }
  | recvCmd (m : WireMsg) (rest : List WireMsg) {s : ProtoState}
      (hc : s.c2w = m :: rest) :
      ProtoStep eng s { s with c2w := rest, slot := some m, emitted := true }
  | engineRun (m : WireMsg) {s : ProtoState}
      (he : s.emitted = true) (hs : s.slot = some m) :
      ProtoStep eng s { s with
        emitted := false,
        sync := (syncDriver eng s.sync m).1,
        w2c := s.w2c ++ ((syncDriver eng s.sync m).2.1.elim [] (fun r => [r])) }
  | recvRes (r : Response) (rest : List Response) {s : ProtoState}
      (ha : s.awaiting = true) (hw : s.w2c = r :: rest) :
      ProtoStep eng s { s with awaiting := false, w2c := rest }

/-- Reachability of a protocol state from the initial state of a script. -/
inductive ProtoReaches (eng : Engine) (script : List WireMsg) : ProtoState → Prop where
  | refl : ProtoReaches eng script (protoInit script)
  | step {s s2 : ProtoState} (h : ProtoReaches eng script s)
      (hs : ProtoStep eng s s2) : ProtoReaches eng script s2

/-- Number of in-flight, unanswered items of one command round trip: the
request still in the pipe, the request handed off but not yet dispatched,
and the response still in the pipe. -/
def outstanding (s : ProtoState) : Nat :=
  s.c2w.length + (if s.emitted then 1 else 0) + s.w2c.length

/-- Inductive protocol invariant: never more than one round trip in flight;
nothing in flight while the controller is neither blocked nor quitting; and
while a handed-off message awaits dispatch, the request pipe is empty (so a
listener `recv` can never overwrite an unprocessed `self.data`). -/
def ProtoInv (s : ProtoState) : Prop :=
  outstanding s ≤ 1 ∧
  (s.awaiting = false → s.quitSent = false → outstanding s = 0) ∧
  (s.emitted = true → s.c2w = [])

theorem protoInv_init (script : List WireMsg) : ProtoInv (protoInit script) := by
  refine ⟨?_, ?_, ?_⟩ <;> simp [protoInit, outstanding]

theorem protoInv_step {eng : Engine} {s s2 : ProtoState}
    (hinv : ProtoInv s) (hstep : ProtoStep eng s s2) : ProtoInv s2 := by
  obtain ⟨h1, h2, h3⟩ := hinv
  cases hstep with
  | send m rest hp ha hq hm =>
      obtain ⟨pend, aw, qs, cw, wc, sl, em, sy⟩ := s
      have ha2 : aw = false := ha
      have hq2 : qs = false := hq
      subst ha2 hq2
      have h0 : cw.length + (if em then 1 else 0) + wc.length = 0 := h2 rfl rfl
      refine ⟨?_, ?_, ?_⟩
      · show (cw ++ [m]).length + (if em then 1 else 0) + wc.length ≤ 1
        rw [List.length_append]
        simp only [List.length_cons, List.length_nil]
        omega
      · intro hA _
        exact absurd hA (by simp)
      · intro hE
        have hE2 : em = true := hE
        subst hE2
        simp at h0
  | sendQuit m rest hp ha hq hm =>
      obtain ⟨pend, aw, qs, cw, wc, sl, em, sy⟩ := s
      have ha2 : aw = false := ha
      have hq2 : qs = false := hq
      subst ha2 hq2
      have h0 : cw.length + (if em then 1 else 0) + wc.length = 0 := h2 rfl rfl
      refine ⟨?_, ?_, ?_⟩
      · show (cw ++ [m]).length + (if em then 1 else 0) + wc.length ≤ 1
        rw [List.length_append]
        simp only [List.length_cons, List.length_nil]
        omega
      · intro _ hQ
        exact absurd hQ (by simp)
      · intro hE
        have hE2 : em = true := hE
        subst hE2
        simp at h0
  | recvCmd m rest hc =>
      obtain ⟨pend, aw, qs, cw, wc, sl, em, sy⟩ := s
      have hc2 : cw = m :: rest := hc
      subst hc2
      have h1x : (m :: rest).length + (if em then 1 else 0) + wc.length ≤ 1 := h1
      simp only [List.length_cons] at h1x
      refine ⟨?_, ?_, ?_⟩
      · show rest.length + 1 + wc.length ≤ 1
        omega
      · intro hA hQ
        have hA2 : aw = false := hA
        have hQ2 : qs = false := hQ
        subst hA2 hQ2
        have h0 : (m :: rest).length + (if em then 1 else 0) + wc.length = 0 := h2 rfl rfl
        simp at h0
      · intro _
        show rest = []
        have : rest.length = 0 := by omega
        exact List.eq_nil_of_length_eq_zero this
  | engineRun m he hs =>
      obtain ⟨pend, aw, qs, cw, wc, sl, em, sy⟩ := s
      have he2 : em = true := he
      subst he2
      have hcw : cw = [] := h3 rfl
      subst hcw
      have h1x : [].length + 1 + wc.length ≤ 1 := h1
      have hwc : wc = [] := by
        simp only [List.length_nil] at h1x
        exact List.eq_nil_of_length_eq_zero (by omega)
      subst hwc
      refine ⟨?_, ?_, ?_⟩
      · show [].length + (if False then 1 else 0) + ([] ++ ((syncDriver eng sy m).2.1.elim [] (fun r => [r]))).length ≤ 1
        cases hres : (syncDriver eng sy m).2.1 <;> simp [hres]
      · intro hA hQ
        have hA2 : aw = false := hA
        have hQ2 : qs = false := hQ
        subst hA2 hQ2
        have h0 : [].length + (if true then 1 else 0) + [].length = 0 := h2 rfl rfl
        simp at h0
      · intro hE
        exact absurd hE (by simp)
  | recvRes r rest ha hw =>
      obtain ⟨pend, aw, qs, cw, wc, sl, em, sy⟩ := s
      have ha2 : aw = true := ha
      have hw2 : wc = r :: rest := hw
      subst ha2 hw2
      have h1x : cw.length + (if em then 1 else 0) + (r :: rest).length ≤ 1 := h1
      simp only [List.length_cons] at h1x
      refine ⟨?_, ?_, ?_⟩
      · show cw.length + (if em then 1 else 0) + rest.length ≤ 1
        omega
      · intro _ _
        show cw.length + (if em then 1 else 0) + rest.length = 0
        omega
      · intro hE
        show cw = []
        exact List.eq_nil_of_length_eq_zero (by omega)

theorem protoInv_reached {eng : Engine} {script : List WireMsg} {s : ProtoState}
    (h : ProtoReaches eng script s) : ProtoInv s := by
  induction h with
  | refl => exact protoInv_init script
  | step h hs ih => exact protoInv_step ih hs

/-- A concrete Engine instantiation used to evaluate the theorems on
closed inputs. Its attribute surface is a sample of the real WebDriver
methods (webdriver.py): `get`, `sleep_ms`, `download`, `contents_size` and
`save_page` all exist on the class; the chosen behaviors exercise both the
success and the error paths (`download` fails with the non-builtin
`DownloadException`, `sleep_ms` with the builtin `ValueError`). -/
def testEngine : Engine where
  ops := fun name =>
    if name = "get" then some (fun _ => Except.ok PyValue.pynone)
    else if name = "sleep_ms" then
      some (fun _ => Except.error ⟨"ValueError", [PyValue.pyint 3]⟩)
    else if name = "download" then
      some (fun _ => Except.error ⟨"DownloadException", [PyValue.pystr "interrupted"]⟩)
    else if name = "contents_size" then
      some (fun _ => Except.ok (PyValue.pytuple [PyValue.pyint 1024, PyValue.pyint 750]))
    else if name = "save_page" then some (fun _ => Except.ok PyValue.pynone)
    else none
  grabImage := fun _ => Except.ok QImage.empty
  attrErrArgs := fun name => [PyValue.pystr name]

/-- The closed enumeration of operation names exactly as the spec words it
(spec section 4.1); stated from the spec, to be compared with the dispatch
the code actually performs. -/
def specOperationNames : List String :=
  ["navigate", "wait", "download", "run_script", "last_script_error",
   "capture", "save_capture", "resize", "content_size", "scroll",
   "set_devtools", "set_interceptor", "quit"]

/-- C1 counterexample: the Engine raising the non-builtin error kind
`DownloadException` during the `download` operation is marshalled as
`(False, "DownloadException", args)`, but the controller rebuild looks the
dot-free kind up in the builtins dictionary, where it is missing, so the
dictionary indexing raises `KeyError("DownloadException")` — the
controller's call raises a KeyError, not an equivalent error of kind
`DownloadException` with the original arguments. -/
theorem claim_C1_counterexample :
    (syncDriver testEngine initSyncState
        ⟨"download", PyValue.pytuple [PyValue.pystr "http://x/f", PyValue.pynone, PyValue.pybool true]⟩).2.1
      = some (Response.failure "DownloadException" [PyValue.pystr "interrupted"]) ∧
    execResult (fun _ => none) (Response.failure "DownloadException" [PyValue.pystr "interrupted"])
      = Except.error ⟨"KeyError", [PyValue.pystr "DownloadException"]⟩ ∧
    "KeyError" ≠ "DownloadException" := by
  refine ⟨rfl, rfl, by decide⟩

/-- C1 amended: when the Engine raises error kind K with arguments A during
an ordinary operation X, the failure is captured as the descriptor
`(False, K, A)`, carried across the command channel, and — provided K is a
dot-free name of a builtin exception — the controller's blocking call to X
re-raises an error of kind K with the same arguments A. -/
theorem claim_C1_roundtrip_builtin
    (mods : String → Option (List String)) (eng : Engine) (st : SyncState)
    (method : String) (f : PyValue → Except PyErr PyValue) (payload : PyValue) (e : PyErr)
    (hop : eng.ops method = some f) (herr : f payload = Except.error e)
    (h1 : method ≠ "quit") (h2 : method ≠ "interceptor") (h3 : method ≠ "grab")
    (hdot : rsplitDot e.kind = none)
    (hbuiltin : pyBuiltinExceptionNames.contains e.kind = true) :
    (syncDriver eng st ⟨method, payload⟩).2.1 = some (Response.failure e.kind e.args) ∧
    execResult mods (Response.failure e.kind e.args) = Except.error e := by
  constructor
  · simp [syncDriver, h1, h2, h3, hop, herr]
  · have hmem : e.kind ∈ pyBuiltinExceptionNames := by
      simpa using hbuiltin
    simp [execResult, rebuildException, hdot, hmem]

/-- C1 witness: the builtin `ValueError` raised with argument 3 during
`sleep_ms` comes back to the controller as a `ValueError` with argument 3. -/
theorem claim_C1_roundtrip_builtin_witness :
    (syncDriver testEngine initSyncState ⟨"sleep_ms", PyValue.pyint 5⟩).2.1
      = some (Response.failure "ValueError" [PyValue.pyint 3]) ∧
    execResult (fun _ => none) (Response.failure "ValueError" [PyValue.pyint 3])
      = Except.error ⟨"ValueError", [PyValue.pyint 3]⟩ :=
  claim_C1_roundtrip_builtin (fun _ => none) testEngine initSyncState "sleep_ms" _
    (PyValue.pyint 5) ⟨"ValueError", [PyValue.pyint 3]⟩ rfl rfl
    (by decide) (by decide) (by decide) rfl rfl

/-- C2: an exception raised while the dispatcher executes a received
operation is caught and converted to the error result
`(False, kind, args)`; the dispatcher function is total, so nothing
propagates out of the message handler; the worker state is untouched, so
the next received command is handled exactly as it would have been — errors
are scoped to the single call. The last conjunct is the same guarantee for
the special-shaped `grab` branch. -/
theorem claim_C2_dispatcher_error_scoped
    (eng : Engine) (st : SyncState) (method : String)
    (f : PyValue → Except PyErr PyValue) (payload : PyValue) (e : PyErr)
    (hop : eng.ops method = some f) (herr : f payload = Except.error e)
    (h1 : method ≠ "quit") (h2 : method ≠ "interceptor") (h3 : method ≠ "grab") :
    syncDriver eng st ⟨method, payload⟩ = (st, some (Response.failure e.kind e.args), none) ∧
    (∀ m2 : WireMsg, syncDriver eng (syncDriver eng st ⟨method, payload⟩).1 m2 = syncDriver eng st m2) ∧
    (∀ (gpayload : PyValue) (ge : PyErr), eng.grabImage gpayload = Except.error ge →
      syncDriver eng st ⟨"grab", gpayload⟩ = (st, some (Response.failure ge.kind ge.args), none)) := by
  have hmain : syncDriver eng st ⟨method, payload⟩ = (st, some (Response.failure e.kind e.args), none) := by
    simp [syncDriver, h1, h2, h3, hop, herr]
  refine ⟨hmain, ?_, ?_⟩
  · intro m2
    rw [hmain]
  · intro gp ge hge
    simp [syncDriver, hge]

/-- C2 witness: the failing `download` operation yields the error result
and leaves the worker state unchanged. -/
theorem claim_C2_witness :
    syncDriver testEngine initSyncState ⟨"download", PyValue.pynone⟩ =
      (initSyncState, some (Response.failure "DownloadException" [PyValue.pystr "interrupted"]), none) :=
  (claim_C2_dispatcher_error_scoped testEngine initSyncState "download" _
    PyValue.pynone ⟨"DownloadException", [PyValue.pystr "interrupted"]⟩ rfl rfl
    (by decide) (by decide) (by decide)).1

/-- C3: in every reachable state of the interleaved protocol, at most one
round trip is in flight: the request pipe and the response pipe each hold
at most one message, a handed-off message that the Engine thread has not
yet dispatched coexists with an empty request pipe (so the listener slot
`self.data` is never overwritten before the Engine thread processes it),
and symmetrically a non-empty request pipe implies the previous handoff is
already consumed. -/
theorem claim_C3_single_outstanding
    (eng : Engine) (script : List WireMsg) (s : ProtoState)
    (h : ProtoReaches eng script s) :
    outstanding s ≤ 1 ∧ s.c2w.length ≤ 1 ∧ s.w2c.length ≤ 1 ∧
    (s.emitted = true → s.c2w = []) ∧ (s.c2w ≠ [] → s.emitted = false) := by
  obtain ⟨h1, h2, h3⟩ := protoInv_reached h
  have h1x : s.c2w.length + (if s.emitted then 1 else 0) + s.w2c.length ≤ 1 := h1
  refine ⟨h1, by omega, by omega, h3, ?_⟩
  intro hne
  cases hem : s.emitted with
  | false => rfl
  | true => exact absurd (h3 hem) hne

/-- C3 witness: the invariant holds at the initial state of a session. -/
theorem claim_C3_witness :
    outstanding (protoInit []) ≤ 1 ∧ (protoInit []).c2w.length ≤ 1 ∧
    (protoInit []).w2c.length ≤ 1 ∧
    ((protoInit []).emitted = true → (protoInit []).c2w = []) ∧
    ((protoInit []).c2w ≠ [] → (protoInit []).emitted = false) :=
  claim_C3_single_outstanding testEngine [] (protoInit []) ProtoReaches.refl

/-- C4: handling the quit command clears the message listener's `alive`
flag and closes the worker's command-channel end (both channel ends, in
fact), answers nothing on the command channel, and the listener loop
performs no handoff at or after the end-of-stream its blocking receive
reports once the channel is closed: the handoffs are exactly the messages
received before end-of-stream. -/
theorem claim_C4_quit_stops_listener (eng : Engine) (st : SyncState) (payload : PyValue) :
    (syncDriver eng st ⟨"quit", payload⟩).1.alive = false ∧
    (syncDriver eng st ⟨"quit", payload⟩).1.driverChannClosed = true ∧
    (syncDriver eng st ⟨"quit", payload⟩).1.interceptorChannClosed = true ∧
    (syncDriver eng st ⟨"quit", payload⟩).2.1 = none ∧
    (∀ pre post : List WireMsg,
      messageWorkerEmits (pre.map some ++ none :: post.map some) = pre) := by
  refine ⟨by simp [syncDriver], by simp [syncDriver], by simp [syncDriver],
          by simp [syncDriver], ?_⟩
  intro pre post
  induction pre with
  | nil => simp [messageWorkerEmits]
  | cons m rest ih => simp [messageWorkerEmits, ih]

theorem interceptorRunSends_until_sentinel
    (p : String → Except PyErr Bool) (pre : List (Option String))
    (u : Option String) (post : List (Option String))
    (hpre : ∀ x ∈ pre, pyFalsyUrl x = false) (hu : pyFalsyUrl u = true) :
    interceptorRunSends p (pre ++ u :: post) =
      pre.map (fun x => interceptorVerdict p (x.getD "")) := by
  induction pre with
  | nil =>
      cases u with
      | none => simp [interceptorRunSends]
      | some s =>
          simp only [pyFalsyUrl, decide_eq_true_eq] at hu
          simp [interceptorRunSends, hu]
  | cons x rest ih =>
      have hx : pyFalsyUrl x = false := hpre x (by simp)
      have ihx := ih (fun y hy => hpre y (by simp [hy]))
      cases x with
      | none => simp [pyFalsyUrl] at hx
      | some s =>
          simp only [pyFalsyUrl, decide_eq_false_iff_not] at hx
          simp [interceptorRunSends, hx, ihx]

theorem interceptorRunClosed_at_sentinel
    (p : String → Except PyErr Bool) (pre : List (Option String))
    (u : Option String) (post : List (Option String))
    (hpre : ∀ x ∈ pre, pyFalsyUrl x = false) (hu : pyFalsyUrl u = true) :
    interceptorRunClosed p (pre ++ u :: post) = true := by
  induction pre with
  | nil =>
      cases u with
      | none => simp [interceptorRunClosed]
      | some s =>
          simp only [pyFalsyUrl, decide_eq_true_eq] at hu
          simp [interceptorRunClosed, hu]
  | cons x rest ih =>
      have hx : pyFalsyUrl x = false := hpre x (by simp)
      have ihx := ih (fun y hy => hpre y (by simp [hy]))
      cases x with
      | none => simp [pyFalsyUrl] at hx
      | some s =>
          simp only [pyFalsyUrl, decide_eq_false_iff_not] at hx
          simp [interceptorRunClosed, hx, ihx]

/-- C5: over any stream of interceptor-channel messages whose first falsy
url follows a run of truthy ones, the listener answers exactly one boolean
verdict per truthy url — computed by the registered predicate, with any
predicate exception demoted to the verdict false — and the first falsy url
(the shutdown sentinel, be it the empty string or None) makes the loop
close its channel end and exit, answering nothing further. -/
theorem claim_C5_interceptor_loop
    (p : String → Except PyErr Bool) (pre : List (Option String))
    (u : Option String) (post : List (Option String))
    (hpre : ∀ x ∈ pre, pyFalsyUrl x = false) (hu : pyFalsyUrl u = true) :
    interceptorRunSends p (pre ++ u :: post) =
      pre.map (fun x => interceptorVerdict p (x.getD "")) ∧
    (interceptorRunSends p (pre ++ u :: post)).length = pre.length ∧
    interceptorRunClosed p (pre ++ u :: post) = true ∧
    (∀ (q : String → Except PyErr Bool) (url : String) (e : PyErr),
      q url = Except.error e → interceptorVerdict q url = false) := by
  have hs := interceptorRunSends_until_sentinel p pre u post hpre hu
  refine ⟨hs, by rw [hs]; simp, interceptorRunClosed_at_sentinel p pre u post hpre hu, ?_⟩
  intro q url e he
  simp [interceptorVerdict, he]

/-- C5 witness: with the always-false predicate, a truthy url is answered
false and the empty-string sentinel ends the loop. -/
theorem claim_C5_witness :
    interceptorRunSends defaultInterceptor [some "http://x/a.js", some ""] =
      [some "http://x/a.js"].map (fun x => interceptorVerdict defaultInterceptor (x.getD "")) ∧
    (interceptorRunSends defaultInterceptor [some "http://x/a.js", some ""]).length = 1 ∧
    interceptorRunClosed defaultInterceptor [some "http://x/a.js", some ""] = true ∧
    (∀ (q : String → Except PyErr Bool) (url : String) (e : PyErr),
      q url = Except.error e → interceptorVerdict q url = false) := by
  have h := claim_C5_interceptor_loop defaultInterceptor [some "http://x/a.js"]
    (some "") [] (by intro x hx; simp at hx; simp [hx, pyFalsyUrl]) (by simp [pyFalsyUrl])
  simpa using h

/-- C6: a first quit on a live session performs, in strict order, the
best-effort quit-command send (a broken pipe is swallowed: the sequence is
the same whether the pipe is broken or not), the close of the controller's
command-channel end, then — only when the interceptor listener thread was
ever started — the empty-string sentinel send and the thread join, then the
close of the controller's interceptor-channel end, and finally the join of
the worker process. By contrast, the last conjunct shows that inside an
ordinary call a broken pipe on the same send is not tolerated: `_exec`
propagates the transport failure to its caller. -/
theorem claim_C6_quit_sequence (pb : Bool) :
    (∀ s : ICtrlState, s.driverChannOpen = true → s.interceptorThreadStarted = true →
      appDriverQuit s pb = (⟨false, true⟩,
        [QuitAction.sendQuitCmd pb, QuitAction.closeDriverChann,
         QuitAction.sendInterceptorSentinel, QuitAction.joinInterceptorThread,
         QuitAction.closeInterceptorChann, QuitAction.joinWorkerProcess])) ∧
    (∀ s : ICtrlState, s.driverChannOpen = true → s.interceptorThreadStarted = false →
      appDriverQuit s pb = (⟨false, false⟩,
        [QuitAction.sendQuitCmd pb, QuitAction.closeDriverChann,
         QuitAction.closeInterceptorChann, QuitAction.joinWorkerProcess])) ∧
    (∀ (mods : String → Option (List String)) (transact : WireMsg → Response)
       (mem : String) (payload : PyValue),
      execModel mods true transact mem payload = Except.error ⟨"BrokenPipeError", []⟩) := by
  refine ⟨?_, ?_, ?_⟩
  · intro s ho hi
    obtain ⟨o, i⟩ := s
    have ho2 : o = true := ho
    have hi2 : i = true := hi
    subst ho2 hi2
    simp [appDriverQuit, interactiveQuit]
  · intro s ho hi
    obtain ⟨o, i⟩ := s
    have ho2 : o = true := ho
    have hi2 : i = false := hi
    subst ho2 hi2
    simp [appDriverQuit, interactiveQuit]
  · intro mods transact mem payload
    simp [execModel, execSend]

/-- C6 witness: the quit sequences of a live session, with and without a
started interceptor thread, both under a broken pipe. -/
theorem claim_C6_witness :
    appDriverQuit ⟨true, true⟩ true = (⟨false, true⟩,
      [QuitAction.sendQuitCmd true, QuitAction.closeDriverChann,
       QuitAction.sendInterceptorSentinel, QuitAction.joinInterceptorThread,
       QuitAction.closeInterceptorChann, QuitAction.joinWorkerProcess]) ∧
    appDriverQuit ⟨true, false⟩ true = (⟨false, false⟩,
      [QuitAction.sendQuitCmd true, QuitAction.closeDriverChann,
       QuitAction.closeInterceptorChann, QuitAction.joinWorkerProcess]) :=
  ⟨(claim_C6_quit_sequence true).1 ⟨true, true⟩ rfl rfl,
   (claim_C6_quit_sequence true).2.1 ⟨true, false⟩ rfl rfl⟩

/-- C7: quit is idempotent. A first quit always leaves the command-channel
handle cleared; a quit on a state whose handle is cleared changes nothing
and performs no channel action at all (it cannot block or raise, being a
total function producing an empty action trace); at the AppDriver level a
second quit only re-joins the already terminated worker process. -/
theorem claim_C7_quit_idempotent (s : ICtrlState) (pb pb2 : Bool) :
    (interactiveQuit s pb).1.driverChannOpen = false ∧
    interactiveQuit (interactiveQuit s pb).1 pb2 = ((interactiveQuit s pb).1, []) ∧
    appDriverQuit (appDriverQuit s pb).1 pb2 =
      ((appDriverQuit s pb).1, [QuitAction.joinWorkerProcess]) := by
  obtain ⟨o, i⟩ := s
  cases o <;> simp [interactiveQuit, appDriverQuit]

/-- C8: the result of a capture call is the 5-tuple of the copied pixel
bytes, width, height, stride, and pixel-format code, and the byte buffer's
length is `stride * height`; negative requested width and height select the
full content dimensions; a rectangle fully outside the content bounds
yields the empty image. -/
theorem claim_C8_capture
    (eng : Engine) (st : SyncState) (payload : PyValue) (img : QImage)
    (hok : eng.grabImage payload = Except.ok img) :
    (syncDriver eng st ⟨"grab", payload⟩).2.1 = some (Response.success (PyValue.pytuple
      [PyValue.pybytes img.constBitsToBytes, PyValue.pyint (img.width : Int),
       PyValue.pyint (img.height : Int), PyValue.pyint (img.bytesPerLine : Int),
       PyValue.pyint (img.format : Int)])) ∧
    img.constBitsToBytes.length = img.bytesPerLine * img.height ∧
    (∀ pw ph : Int, 0 < pw → 0 < ph →
      grabClamp 0 0 (-1) (-1) pw ph = some (0, 0, pw, ph)) ∧
    (∀ (fb : Nat → Nat) (fmt : Nat) (x y w h pw ph stop sh : Int),
      0 ≤ pw → 0 ≤ ph → 0 ≤ w → 0 ≤ h →
      (pw ≤ x ∨ ph ≤ y ∨ x + w ≤ 0 ∨ y + h ≤ 0) →
      webDriverGrab fb fmt x y w h pw ph stop sh = QImage.empty) := by
  refine ⟨by simp [syncDriver, hok], img.size_eq, ?_, ?_⟩
  · intro pw ph hpw hph
    unfold grabClamp
    simp only [show ((-1 : Int) < 0) = True by simp, if_true]
    rw [if_neg (by omega)]
    simp
  · intro fb fmt x y w h pw ph stop sh hpw hph hw hh hout
    have hclamp : grabClamp x y w h pw ph = none := by
      unfold grabClamp
      rw [if_neg (by omega : ¬(w : Int) < 0), if_neg (by omega : ¬(h : Int) < 0)]
      rw [if_pos (by omega)]
    simp [webDriverGrab, grabRect, hclamp]

/-- C8 witness: a successful capture on the test engine produces the
5-tuple result, and the full-content clamp evaluates on a 1024 by 750
page. -/
theorem claim_C8_witness :
    (syncDriver testEngine initSyncState ⟨"grab", PyValue.pynone⟩).2.1
      = some (Response.success (PyValue.pytuple
        [PyValue.pybytes [], PyValue.pyint 0, PyValue.pyint 0,
         PyValue.pyint 0, PyValue.pyint 0])) ∧
    grabClamp 0 0 (-1) (-1) 1024 750 = some (0, 0, 1024, 750) := by
  have h := claim_C8_capture testEngine initSyncState PyValue.pynone QImage.empty rfl
  exact ⟨h.1, h.2.2.1 1024 750 (by decide) (by decide)⟩

/-- C9 counterexample: `save_page` is a real attribute of the Engine
(webdriver.py line 230) whose name lies outside the enumeration of
operation names the spec fixes, yet the dispatcher resolves and executes it
by dynamic name lookup and returns its result instead of rejecting the
message. -/
theorem claim_C9_counterexample :
    (syncDriver testEngine initSyncState
        ⟨"save_page", PyValue.pytuple [PyValue.pystr "out.html", PyValue.pyint 2]⟩).2.1
      = some (Response.success PyValue.pynone) ∧
    specOperationNames.contains "save_page" = false := by
  exact ⟨rfl, rfl⟩

/-- C9 amended: dispatch special-cases only the names quit, interceptor and
grab; every other received operation name is resolved by free-form dynamic
attribute lookup against the Engine — a name that resolves is invoked
whether or not it belongs to any fixed enumeration, and a name that does
not resolve produces an AttributeError error result rather than a
validation rejection. -/
theorem claim_C9_dispatch_by_lookup
    (eng : Engine) (st : SyncState) (name : String) (payload : PyValue)
    (h1 : name ≠ "quit") (h2 : name ≠ "interceptor") (h3 : name ≠ "grab") :
    syncDriver eng st ⟨name, payload⟩ =
      (st,
       some (match eng.ops name with
             | none => Response.failure "AttributeError" (eng.attrErrArgs name)
             | some f =>
               match f payload with
               | Except.ok v => Response.success v
               | Except.error e => Response.failure e.kind e.args),
       none) := by
  cases hop : eng.ops name with
  | none => simp [syncDriver, h1, h2, h3, hop]
  | some f =>
      cases hres : f payload with
      | ok v => simp [syncDriver, h1, h2, h3, hop, hres]
      | error e => simp [syncDriver, h1, h2, h3, hop, hres]

/-- C9 witness: a name resolving to no Engine attribute yields the
AttributeError error result. -/
theorem claim_C9_witness :
    syncDriver testEngine initSyncState ⟨"wait_quit", PyValue.pynone⟩ =
      (initSyncState, some (Response.failure "AttributeError" [PyValue.pystr "wait_quit"]), none) := by
  have h := claim_C9_dispatch_by_lookup testEngine initSyncState "wait_quit"
    PyValue.pynone (by decide) (by decide) (by decide)
  simpa using h

/-- C10: after any `set_url_request_interceptor(p)` call the predicate slot
holds a callable — for `p = None` it holds the built-in default predicate,
which returns false for every url and never raises — so an interceptor
query arriving while interception is disabled is answered with the verdict
false and the listener loop neither crashes nor exits; the listener thread
is marked started after the call and a new thread is spawned only when none
was started before, so later enable calls reuse it. -/
theorem claim_C10_slot_never_none
    (s : InterceptorCtrl) (p : Option (String → Except PyErr Bool)) :
    (setUrlRequestInterceptor s p).1.slot.isSome = true ∧
    (setUrlRequestInterceptor s none).1.slot = some defaultInterceptor ∧
    (∀ url : String, interceptorVerdict defaultInterceptor url = false) ∧
    (∀ url : String, url ≠ "" →
      interceptorRunSends defaultInterceptor [some url] = [false] ∧
      interceptorRunClosed defaultInterceptor [some url] = false) ∧
    (setUrlRequestInterceptor s p).1.threadStarted = true ∧
    (setUrlRequestInterceptor s p).2.1 = !s.threadStarted := by
  refine ⟨by cases p <;> simp [setUrlRequestInterceptor],
          by simp [setUrlRequestInterceptor],
          by intro url; simp [interceptorVerdict, defaultInterceptor],
          ?_, rfl, rfl⟩
  intro url hurl
  constructor
  · simp [interceptorRunSends, hurl, interceptorVerdict, defaultInterceptor]
  · simp [interceptorRunClosed, hurl]

/-- C10 witness: disabling interception installs the default predicate and
a query at a concrete url is answered false without closing the listener. -/
theorem claim_C10_witness :
    (setUrlRequestInterceptor ⟨false, none⟩ none).1.slot.isSome = true ∧
    interceptorRunSends defaultInterceptor [some "http://x/app.js"] = [false] ∧
    interceptorRunClosed defaultInterceptor [some "http://x/app.js"] = false ∧
    (setUrlRequestInterceptor ⟨false, none⟩ none).2.1 = true := by
  have h := claim_C10_slot_never_none ⟨false, none⟩ none
  have h4 := h.2.2.2.1 "http://x/app.js" (by decide)
  exact ⟨h.1, h4.1, h4.2, h.2.2.2.2.2⟩

end QWebDriver
